import Mathlib

set_option maxRecDepth 8000
set_option linter.unusedVariables false

/-!
Verification of `pywemo/ouimeaux_device/humidifier.py`.

The module decodes a WeMo humidifier's XML attribute blob into a flat
mapping of typed values and layers a device facade (`Humidifier`) over
that mapping.  We embed the module shallowly:

* An attribute blob that parsed successfully is modelled as a list of
  `Attr` records; `Attr.name` is the text of the element's first child
  (`attribute[0].text` in the source) and `Attr.value` the text of its
  second child (`attribute[1].text`).  The XML transport layer
  (`et.fromstring`, the `&gt;`/`&lt;` unescaping and the synthetic
  `<attributes>` wrapper) lives in an external library and is out of
  scope; the claims quantify over fragments that parse successfully,
  i.e. over the element lists the parser hands to the loop.  Texts are
  modelled as `String`s (elements whose text is present).
* Python `int(...)` / `float(...)` conversions are modelled as
  `Option`-returning parsers over the value text; Python floats are
  modelled as rationals (`ℚ`), with Python's banker's rounding
  (`round(x, 2)`) modelled exactly on `ℚ`.  Python 3.6 underscore
  grouping and the non-finite literals `inf`/`nan` are not modelled;
  no attribute value in the claims uses them.
* The `Humidifier` object's mutable fields `_attributes` and `_state`
  become a `HumidifierState` record, and each method becomes a state
  transformer.  RPC calls to the external `deviceevent` collaborator are
  modelled by passing the (parsed) `GetAttributes` response in as an
  argument and by returning the list of `SetAttributes` payloads and the
  number of `update_attributes` invocations as outputs.
-/

/-- One `<attribute>` element of a parsed fragment: the text of its first
child (the name) and the text of its second child (the value). -/
structure Attr where
  name : String
  value : String
deriving DecidableEq, Repr

/-- A parsed attribute blob: the `<attribute>` elements in document order. -/
abbrev Fragment := List Attr

/-- Whitespace characters stripped by Python `int()` / `float()` before
conversion (the ASCII subset; the claims use none of the unicode ones). -/
def isPySpace (c : Char) : Bool :=
  c = ' ' ∨ c = '\t' ∨ c = '\n' ∨ c = '\r' ∨ c = '\x0b' ∨ c = '\x0c'

/-- Strip leading and trailing whitespace, as Python number conversion does. -/
def pyStripChars (cs : List Char) : List Char :=
  ((cs.dropWhile isPySpace).reverse.dropWhile isPySpace).reverse

/-- Value of a string of decimal digit characters. -/
def digitsToNat (cs : List Char) : Nat :=
  cs.foldl (fun acc c => 10 * acc + (c.toNat - 48)) 0

/-- Consume an optional leading sign; returns whether it was `-` and the rest. -/
def readSign : List Char → Bool × List Char
  | '-' :: rest => (true, rest)
  | '+' :: rest => (false, rest)
  | cs => (false, cs)

/-- Python `int(text)`: strip whitespace, optional sign, then a nonempty
run of decimal digits; anything else raises `ValueError` (`none` here). -/
def parsePyInt (s : String) : Option Int :=
  let cs := pyStripChars s.toList
  let (neg, body) := readSign cs
  if ¬ body.isEmpty ∧ body.all (·.isDigit) then
    some (if neg then -(digitsToNat body : Int) else (digitsToNat body : Int))
  else
    none

/-- Mantissa of a Python float literal: `digits`, `digits.`, `.digits` or
`digits.digits`, valued as a rational. -/
def parseMantissa (cs : List Char) : Option ℚ :=
  let ip := cs.takeWhile (·.isDigit)
  let rest := cs.drop ip.length
  match rest with
  | [] => if ip.isEmpty then none else some (digitsToNat ip : ℚ)
  | '.' :: fp =>
    if fp.all (·.isDigit) ∧ (¬ ip.isEmpty ∨ ¬ fp.isEmpty) then
      some ((digitsToNat ip : ℚ) + (digitsToNat fp : ℚ) / ((10 : ℚ) ^ fp.length))
    else none
  | _ => none

/-- Split a float body at the first `e`/`E`, if any. -/
def splitOnE : List Char → List Char × Option (List Char)
  | [] => ([], none)
  | c :: rest =>
    if c = 'e' ∨ c = 'E' then ([], some rest)
    else
      let (a, b) := splitOnE rest
      (c :: a, b)

/-- Python `float(text)` on finite decimal literals, valued exactly as a
rational: strip whitespace, optional sign, mantissa, optional exponent. -/
def parsePyFloat (s : String) : Option ℚ :=
  let cs := pyStripChars s.toList
  let (neg, body) := readSign cs
  let (mantChars, expChars) := splitOnE body
  match parseMantissa mantChars with
  | none => none
  | some m =>
    let signed : ℚ := if neg then -m else m
    match expChars with
    | none => some signed
    | some ecs =>
      let (eneg, ebody) := readSign ecs
      if ¬ ebody.isEmpty ∧ ebody.all (·.isDigit) then
        let e : ℤ := if eneg then -(digitsToNat ebody : Int) else (digitsToNat ebody : Int)
        some (signed * (10 : ℚ) ^ e)
      else none

/-- Python `round` to an integer: round half to even (banker's rounding),
modelled exactly on rationals. -/
def pyRound (q : ℚ) : ℤ :=
  let f := ⌊q⌋
  let frac := q - (f : ℚ)
  if frac < 1 / 2 then f
  else if 1 / 2 < frac then f + 1
  else if f % 2 = 0 then f else f + 1

/-- Python `round(q, 2)`: banker's rounding to two decimal places. -/
def round2 (q : ℚ) : ℚ :=
  ((pyRound (q * 100) : ℚ)) / 100

/-- The flat mapping produced by `attribute_xml_to_dict` and cached in
`Humidifier._attributes`: a Python dict whose only possible keys are the
six below, with an absent key modelled as `none`. -/
structure AttributeSnapshot where
  fan_mode : Option Int
  desired_humidity : Option Int
  current_humidity : Option ℚ
  water_level : Option Int
  filter_life : Option ℚ
  filter_expired : Option Bool
deriving DecidableEq, Repr

/-- The empty dict `{}`. -/
def emptySnapshot : AttributeSnapshot :=
  ⟨none, none, none, none, none, none⟩

/-- One iteration of the loop in `attribute_xml_to_dict`: the `elif` chain
on `attribute[0].text`, with each failed `int`/`float` conversion
(`except ValueError: pass`) leaving the dict unchanged. -/
def processAttribute (result : AttributeSnapshot) (a : Attr) : AttributeSnapshot :=
  if a.name = "FanMode" then
    match parsePyInt a.value with
    | some v => { result with fan_mode := some v }
    | none => result
  else if a.name = "DesiredHumidity" then
    match parsePyInt a.value with
    | some v => { result with desired_humidity := some v }
    | none => result
  else if a.name = "CurrentHumidity" then
    match parsePyFloat a.value with
    | some v => { result with current_humidity := some v }
    | none => result
  else if a.name = "NoWater" ∧ a.value = "1" then
    { result with water_level := some 0 }
  else if a.name = "WaterAdvise" ∧ a.value = "1" then
    { result with water_level := some 1 }
  else if a.name = "FilterLife" then
    match parsePyFloat a.value with
    | some v => { result with filter_life := some (round2 ((v / 60480) * 100)) }
    | none => result
  else if a.name = "ExpiredFilterTime" then
    match parsePyInt a.value with
    | some v => { result with filter_expired := some (v ≠ 0) }
    | none => result
  else
    result

/-- `attribute_xml_to_dict`: seed the dict with `water_level = 2`, then run
the loop over the fragment's elements in document order. -/
def attribute_xml_to_dict (xml_blob : Fragment) : AttributeSnapshot :=
  xml_blob.foldl processAttribute
    ⟨none, none, none, some 2, none, none⟩

/-- `FAN_MODE_NAMES`: the dict from `FanMode` members (integer-valued) to
their display names. -/
def FAN_MODE_NAMES : List (Int × String) :=
  [(0, "Off"), (1, "Minimum"), (2, "Low"), (3, "Medium"), (4, "High"), (5, "Maximum")]

/-- `DESIRED_HUMIDITY_NAMES`: the dict from `DESIRED_HUMIDITY` members to
their display names ("45", "50", "55", "60", "100"). -/
def DESIRED_HUMIDITY_NAMES : List (Int × String) :=
  [(0, "45"), (1, "50"), (2, "55"), (3, "60"), (4, "100")]

/-- `WATER_LEVEL_NAMES`: the dict from `WaterLevel` members to their names. -/
def WATER_LEVEL_NAMES : List (Int × String) :=
  [(0, "Empty"), (1, "Low"), (2, "Good")]

/-- Python `table.get(key, dflt)` where the key read from the snapshot may
itself be absent (`None` is a key of none of the tables above). -/
def dictGet (table : List (Int × String)) (key : Option Int) (dflt : String) : String :=
  match key with
  | none => dflt
  | some v =>
    match table.find? (fun p => p.1 = v) with
    | some p => p.2
    | none => dflt

/-- Python `dict.update(delta)` on the six-key snapshot dict: every key
present in `delta` overwrites, every key absent from `delta` keeps the
old value. -/
def updateSnapshot (old delta : AttributeSnapshot) : AttributeSnapshot where
  fan_mode := match delta.fan_mode with
    | some v => some v
    | none => old.fan_mode
  desired_humidity := match delta.desired_humidity with
    | some v => some v
    | none => old.desired_humidity
  current_humidity := match delta.current_humidity with
    | some v => some v
    | none => old.current_humidity
  water_level := match delta.water_level with
    | some v => some v
    | none => old.water_level
  filter_life := match delta.filter_life with
    | some v => some v
    | none => old.filter_life
  filter_expired := match delta.filter_expired with
    | some v => some v
    | none => old.filter_expired

/-- The mutable fields of a `Humidifier` object: the cached attribute dict
`_attributes` and the derived `_state` (`None` or the last fan mode). -/
structure HumidifierState where
  _attributes : AttributeSnapshot
  _state : Option Int
deriving DecidableEq, Repr

namespace Humidifier

/-- The `fan_mode` property: `self._attributes.get('fan_mode')`. -/
def fan_mode (dev : HumidifierState) : Option Int :=
  dev._attributes.fan_mode

/-- The `fan_mode_string` property: `FAN_MODE_NAMES.get(self.fan_mode, "Unknown")`. -/
def fan_mode_string (dev : HumidifierState) : String :=
  dictGet FAN_MODE_NAMES (fan_mode dev) "Unknown"

/-- The `desired_humidity` property: `self._attributes.get('desired_humidity')`. -/
def desired_humidity (dev : HumidifierState) : Option Int :=
  dev._attributes.desired_humidity

/-- The `desired_humidity_percent` property:
`DESIRED_HUMIDITY_NAMES.get(self.desired_humidity, "Unknown")`. -/
def desired_humidity_percent (dev : HumidifierState) : String :=
  dictGet DESIRED_HUMIDITY_NAMES (desired_humidity dev) "Unknown"

/-- The `current_humidity_percent` property:
`self._attributes.get('current_humidity')`. -/
def current_humidity_percent (dev : HumidifierState) : Option ℚ :=
  dev._attributes.current_humidity

/-- The `water_level` property: `self._attributes.get('water_level')`. -/
def water_level (dev : HumidifierState) : Option Int :=
  dev._attributes.water_level

/-- The `water_level_string` property:
`WATER_LEVEL_NAMES.get(self.water_level, "Unknown")`. -/
def water_level_string (dev : HumidifierState) : String :=
  dictGet WATER_LEVEL_NAMES (water_level dev) "Unknown"

/-- The `filter_life_percent` property: `self._attributes.get('filter_life')`. -/
def filter_life_percent (dev : HumidifierState) : Option ℚ :=
  dev._attributes.filter_life

/-- The `filter_expired` property: `self._attributes.get('filter_expired')`. -/
def filter_expired (dev : HumidifierState) : Option Bool :=
  dev._attributes.filter_expired

/-- `update_attributes`: fetch the attribute blob from the device
(`self.deviceevent.GetAttributes().get('attributeList')`, passed in here as
the parsed fragment `resp`), decode it, assign the result to
`self._attributes` (a plain assignment, not a merge), and set
`self._state = self.fan_mode`. -/
def update_attributes (dev : HumidifierState) (resp : Fragment) : HumidifierState :=
  let attrs := attribute_xml_to_dict resp
  { _attributes := attrs, _state := attrs.fan_mode }

/-- `subscription_update`: on an `"attributeList"` push, decode the payload,
merge it into `self._attributes` via `dict.update`, refresh `_state` and
return `True`.  Any other push type is delegated to the external
`Switch.subscription_update` (outside `src/`); its result, which leaves this
class's fields untouched, is passed in as `baseResult`. -/
def subscription_update (dev : HumidifierState) (type_ : String) (params : Fragment)
    (baseResult : Bool) : HumidifierState × Bool :=
  if type_ = "attributeList" then
    let merged := updateSnapshot dev._attributes (attribute_xml_to_dict params)
    ({ _attributes := merged, _state := merged.fan_mode }, true)
  else
    (dev, baseResult)

/-- `get_state`: refresh via `update_attributes` when `force_update` is set
or `_state is None`, then return `int(self._state != FanMode.Off)`.  The
result carries the new object state, the returned int, and how many times
`update_attributes` ran. -/
def get_state (dev : HumidifierState) (force_update : Bool) (resp : Fragment) :
    HumidifierState × Int × Nat :=
  let refreshed :=
    if force_update || dev._state.isNone then (update_attributes dev resp, 1) else (dev, 0)
  (refreshed.1, if refreshed.1._state = some 0 then 0 else 1, refreshed.2)

/-- Modelled from the spec: `quote_xml` (imported from
`pywemo.ouimeaux_device.api.xsd.device`, not part of this repository) is the
external XML-escaping collaborator; per the spec it HTML-escapes the markup
characters, which the decoder reverses by replacing `&gt;`/`&lt;`. -/
def quote_xml (s : String) : String :=
  (s.replace "<" "&lt;").replace ">" "&gt;"

/-- `set_fan_mode`: send one `SetAttributes` RPC whose `attributeList` is the
quoted one-attribute `FanMode` fragment, then `self.get_state(True)`.  The
result carries the new object state, the list of `SetAttributes` payloads
issued, and how many times `update_attributes` ran; `resp` is the fragment
the forced refresh receives from `GetAttributes`. -/
def set_fan_mode (dev : HumidifierState) (fan_mode : Int) (resp : Fragment) :
    HumidifierState × List String × Nat :=
  let payload :=
    quote_xml ("<attribute><name>FanMode</name><value>" ++ toString fan_mode
      ++ "</value></attribute>")
  let out := get_state dev true resp
  (out.1, [payload], out.2.2)

/-- `set_state`: compatibility alias for `set_fan_mode`. -/
def set_state (dev : HumidifierState) (state : Int) (resp : Fragment) :
    HumidifierState × List String × Nat :=
  set_fan_mode dev state resp

/-- `set_humidity`: same pattern as `set_fan_mode` for `DesiredHumidity`. -/
def set_humidity (dev : HumidifierState) (desired_humidity : Int) (resp : Fragment) :
    HumidifierState × List String × Nat :=
  let payload :=
    quote_xml ("<attribute><name>DesiredHumidity</name><value>" ++ toString desired_humidity
      ++ "</value></attribute>")
  let out := get_state dev true resp
  (out.1, [payload], out.2.2)

/-- `set_fan_mode_and_humidity`: one `SetAttributes` RPC carrying both
attributes, then one forced refresh. -/
def set_fan_mode_and_humidity (dev : HumidifierState) (fan_mode desired_humidity : Int)
    (resp : Fragment) : HumidifierState × List String × Nat :=
  let payload :=
    quote_xml ("<attribute><name>FanMode</name><value>" ++ toString fan_mode
      ++ "</value></attribute>"
      ++ "<attribute><name>DesiredHumidity</name><value>" ++ toString desired_humidity
      ++ "</value></attribute>")
  let out := get_state dev true resp
  (out.1, [payload], out.2.2)

end Humidifier

/-- Render one `<attribute>` element; used to state what payload a setter
builds. -/
def renderAttr (a : Attr) : String :=
  "<attribute><name>" ++ a.name ++ "</name><value>" ++ a.value ++ "</value></attribute>"

/-- Render a fragment: its elements' renderings concatenated in order. -/
def renderFragment (f : Fragment) : String :=
  String.join (f.map renderAttr)

/-- A water-signal attribute that fires an override in the decoder: name
`NoWater` or `WaterAdvise`, value exactly `"1"`. -/
def isWaterSet (a : Attr) : Bool :=
  (a.name = "NoWater" ∨ a.name = "WaterAdvise") ∧ a.value = "1"

/-- The last water-signal attribute of a fragment in document order, if any. -/
def lastWater : Fragment → Option Attr
  | [] => none
  | a :: rest =>
    match lastWater rest with
    | some b => some b
    | none => if isWaterSet a then some a else none

/-- A recognized attribute whose value text fails its `int`/`float`
conversion, raising `ValueError` inside the decoder's `try` blocks. -/
def conversionFails (a : Attr) : Prop :=
  ((a.name = "FanMode" ∨ a.name = "DesiredHumidity" ∨ a.name = "ExpiredFilterTime")
      ∧ parsePyInt a.value = none)
    ∨ ((a.name = "CurrentHumidity" ∨ a.name = "FilterLife")
      ∧ parsePyFloat a.value = none)

instance (a : Attr) : Decidable (conversionFails a) := by
  unfold conversionFails
  infer_instance

/-- A cached snapshot holding `fan_mode = 3` (the spec's merge example). -/
def priorSnap : AttributeSnapshot :=
  ⟨some 3, none, none, some 2, none, none⟩

/-- A freshly constructed device: empty attribute dict, `_state` unset. -/
def devUnset : HumidifierState :=
  ⟨emptySnapshot, none⟩

/-- A device whose last decode carried `FanMode = 3`. -/
def devMode3 : HumidifierState :=
  ⟨priorSnap, some 3⟩

/-- A device whose last decode carried `FanMode = 4`. -/
def devMode4 : HumidifierState :=
  ⟨⟨some 4, some 1, none, some 2, none, none⟩, some 4⟩

/-- A device whose last decode carried the out-of-range `FanMode = 9`. -/
def devMode9 : HumidifierState :=
  ⟨⟨some 9, some 9, none, some 9, none, none⟩, some 9⟩

example : (attribute_xml_to_dict []).water_level = some 2 := by with_unfolding_all decide
example : (attribute_xml_to_dict [⟨"FanMode", "3"⟩]).fan_mode = some 3 := by with_unfolding_all decide
example : (attribute_xml_to_dict [⟨"CurrentHumidity", "42.5"⟩]).current_humidity
    = some (85 / 2) := by with_unfolding_all decide
example : (attribute_xml_to_dict [⟨"CurrentHumidity", "abc"⟩]).current_humidity
    = none := by with_unfolding_all decide
example : (attribute_xml_to_dict [⟨"FilterLife", "30240"⟩]).filter_life
    = some 50 := by with_unfolding_all decide
example : (attribute_xml_to_dict [⟨"NoWater", "1"⟩]).water_level = some 0 := by with_unfolding_all decide
example : (attribute_xml_to_dict [⟨"WaterAdvise", "1"⟩]).water_level = some 1 := by with_unfolding_all decide
example : (attribute_xml_to_dict [⟨"NoWater", "1"⟩, ⟨"WaterAdvise", "1"⟩]).water_level
    = some 1 := by with_unfolding_all decide
example : (attribute_xml_to_dict [⟨"WaterAdvise", "1"⟩, ⟨"NoWater", "1"⟩]).water_level
    = some 0 := by with_unfolding_all decide
example : parsePyInt "  -12 " = some (-12) := by with_unfolding_all decide
example : parsePyInt "1.5" = none := by with_unfolding_all decide
example : parsePyFloat "1e3" = some 1000 := by with_unfolding_all decide
example : parsePyFloat "." = none := by with_unfolding_all decide
example : parsePyFloat "1." = some 1 := by with_unfolding_all decide

/-! ## Structural lemmas about the decoder loop -/

theorem processAttribute_water_level (r : AttributeSnapshot) (a : Attr) :
    (processAttribute r a).water_level =
      if isWaterSet a then some (if a.name = "NoWater" then 0 else 1)
      else r.water_level := by
  unfold processAttribute isWaterSet
  split_ifs <;>
    cases parsePyInt a.value <;>
    cases parsePyFloat a.value <;>
    simp_all

theorem processAttribute_skip_conversion (r : AttributeSnapshot) (a : Attr)
    (h : conversionFails a) : processAttribute r a = r := by
  unfold conversionFails at h
  unfold processAttribute
  rcases h with ⟨hn, hv⟩ | ⟨hn, hv⟩ <;> rcases hn with hn | hn <;>
    try rcases hn with hn | hn
  all_goals simp [hn, hv]

theorem processAttribute_skip_water (r : AttributeSnapshot) (a : Attr)
    (hn : a.name = "NoWater" ∨ a.name = "WaterAdvise") (hv : a.value ≠ "1") :
    processAttribute r a = r := by
  unfold processAttribute
  rcases hn with hn | hn <;> simp [hn, hv]

theorem processAttribute_filter_life_other (r : AttributeSnapshot) (a : Attr)
    (h : a.name ≠ "FilterLife") :
    (processAttribute r a).filter_life = r.filter_life := by
  unfold processAttribute
  split_ifs <;>
    cases parsePyInt a.value <;>
    cases parsePyFloat a.value <;>
    simp_all

theorem processAttribute_filter_life_set (r : AttributeSnapshot) (a : Attr) (raw : ℚ)
    (hn : a.name = "FilterLife") (hv : parsePyFloat a.value = some raw) :
    (processAttribute r a).filter_life = some (round2 ((raw / 60480) * 100)) := by
  unfold processAttribute
  simp [hn, hv]

theorem water_level_foldl (l : Fragment) (acc : AttributeSnapshot) :
    (l.foldl processAttribute acc).water_level =
      match lastWater l with
      | some a => some (if a.name = "NoWater" then 0 else 1)
      | none => acc.water_level := by
  induction l generalizing acc with
  | nil => rfl
  | cons a rest ih =>
    rw [List.foldl_cons, ih]
    cases hl : lastWater rest with
    | some b => simp [lastWater, hl]
    | none =>
      by_cases hw : isWaterSet a <;>
        simp [lastWater, hl, hw, processAttribute_water_level]

theorem lastWater_append (l l' : Fragment) :
    lastWater (l ++ l') =
      match lastWater l' with
      | some b => some b
      | none => lastWater l := by
  induction l with
  | nil => cases h : lastWater l' <;> simp [lastWater, h]
  | cons a rest ih =>
    simp only [List.cons_append, lastWater]
    cases hl : lastWater l' <;> cases hr : lastWater rest <;> simp_all

theorem lastWater_none_of_no_water (l : Fragment)
    (h : ∀ x ∈ l, isWaterSet x = false) : lastWater l = none := by
  induction l with
  | nil => rfl
  | cons a rest ih =>
    have ha := h a (by simp)
    have hrest := ih fun x hx => h x (by simp [hx])
    simp [lastWater, hrest, ha]

theorem filter_life_foldl_other (l : Fragment) (acc : AttributeSnapshot)
    (h : ∀ x ∈ l, x.name ≠ "FilterLife") :
    (l.foldl processAttribute acc).filter_life = acc.filter_life := by
  induction l generalizing acc with
  | nil => rfl
  | cons a rest ih =>
    rw [List.foldl_cons, ih _ fun x hx => h x (by simp [hx])]
    exact processAttribute_filter_life_other acc a (h a (by simp))

/-! ## Claims -/

/-- C2: for every fragment that parses successfully, the decoder always puts
`water_level` in the resulting delta; it is `Good (2)` when the fragment has
no water-signal attribute (`NoWater`/`WaterAdvise` valued `"1"`), and
otherwise `Empty (0)` or `Low (1)` according to the last water-signal
attribute in document order (so a `NoWater`/`WaterAdvise` signal with no
later overriding water attribute determines the value). -/
theorem claim_C2 (f : Fragment) :
    (attribute_xml_to_dict f).water_level =
      some (match lastWater f with
            | none => 2
            | some a => if a.name = "NoWater" then 0 else 1) := by
  rw [attribute_xml_to_dict, water_level_foldl]
  cases lastWater f <;> rfl

/-- C3: the decoder applies "last water attribute in document order wins",
not a fixed priority rule: whenever a water-signal attribute `b` is the last
one of the fragment (in particular when both `NoWater=1` and `WaterAdvise=1`
occur, with `a` the earlier and `b` the later), the decoded `water_level` is
the level `b` sets: `0` if `b` is `NoWater`, `1` if `b` is `WaterAdvise`. -/
theorem claim_C3 (pre mid post : Fragment) (a b : Attr)
    (ha : isWaterSet a = true) (hb : isWaterSet b = true)
    (hpost : ∀ x ∈ post, isWaterSet x = false) :
    (attribute_xml_to_dict (pre ++ a :: mid ++ b :: post)).water_level =
      some (if b.name = "NoWater" then 0 else 1) := by
  have h0 : lastWater (b :: post) = some b := by
    simp [lastWater, lastWater_none_of_no_water post hpost, hb]
  rw [attribute_xml_to_dict, water_level_foldl, lastWater_append, h0]

/-- Witness for C3: with `NoWater=1` before `WaterAdvise=1` the decode is
`Low (1)`; in the opposite document order it is `Empty (0)`. -/
theorem claim_C3_witness :
    (attribute_xml_to_dict [⟨"NoWater", "1"⟩, ⟨"WaterAdvise", "1"⟩]).water_level = some 1 ∧
    (attribute_xml_to_dict [⟨"WaterAdvise", "1"⟩, ⟨"NoWater", "1"⟩]).water_level = some 0 := by
  constructor
  · have h := claim_C3 [] [] [] ⟨"NoWater", "1"⟩ ⟨"WaterAdvise", "1"⟩
      (by decide) (by decide) (by decide)
    simpa using h
  · have h := claim_C3 [] [] [] ⟨"WaterAdvise", "1"⟩ ⟨"NoWater", "1"⟩
      (by decide) (by decide) (by decide)
    simpa using h

/-- C10: a `NoWater` or `WaterAdvise` attribute whose value is any string
other than exactly `"1"` is silently ignored like an unrecognized name: the
decode of the fragment with it equals the decode of the fragment without it
(in particular `water_level` is unchanged from the scan so far), and nothing
is raised. -/
theorem claim_C10 (pre post : Fragment) (a : Attr)
    (hname : a.name = "NoWater" ∨ a.name = "WaterAdvise") (hval : a.value ≠ "1") :
    attribute_xml_to_dict (pre ++ a :: post) = attribute_xml_to_dict (pre ++ post) := by
  unfold attribute_xml_to_dict
  rw [List.foldl_append, List.foldl_append, List.foldl_cons,
    processAttribute_skip_water _ a hname hval]

/-- Witness for C10: `NoWater=0` in the middle of a fragment decodes exactly
as if it were not there. -/
theorem claim_C10_witness :
    attribute_xml_to_dict [⟨"FanMode", "2"⟩, ⟨"NoWater", "0"⟩]
      = attribute_xml_to_dict [⟨"FanMode", "2"⟩] :=
  claim_C10 [⟨"FanMode", "2"⟩] [] ⟨"NoWater", "0"⟩ (by decide) (by decide)

/-- C7: a recognized attribute whose value text fails its numeric/boolean
conversion contributes nothing: the decode equals the decode of the fragment
without it, so that single key is absent (unless another attribute set it),
no exception escapes, and every other attribute is decoded normally. -/
theorem claim_C7 (pre post : Fragment) (bad : Attr) (h : conversionFails bad) :
    attribute_xml_to_dict (pre ++ bad :: post) = attribute_xml_to_dict (pre ++ post) := by
  unfold attribute_xml_to_dict
  rw [List.foldl_append, List.foldl_append, List.foldl_cons,
    processAttribute_skip_conversion _ bad h]

/-- Witness for C7: `CurrentHumidity=abc` is dropped while `FanMode` and
`WaterAdvise` around it decode normally; the delta has no
`current_humidity` key. -/
theorem claim_C7_witness :
    conversionFails ⟨"CurrentHumidity", "abc"⟩ ∧
    attribute_xml_to_dict [⟨"FanMode", "3"⟩, ⟨"CurrentHumidity", "abc"⟩, ⟨"WaterAdvise", "1"⟩]
      = attribute_xml_to_dict [⟨"FanMode", "3"⟩, ⟨"WaterAdvise", "1"⟩] :=
  ⟨by decide,
   claim_C7 [⟨"FanMode", "3"⟩] [⟨"WaterAdvise", "1"⟩] ⟨"CurrentHumidity", "abc"⟩ (by decide)⟩

/-- C6: a parse-successful `FilterLife` attribute with numeric raw value
`raw` (and no later `FilterLife` attribute overriding it) decodes to
`filter_life = round((raw / 60480) * 100, 2)`. -/
theorem claim_C6 (pre post : Fragment) (v : String) (raw : ℚ)
    (hv : parsePyFloat v = some raw)
    (hpost : ∀ x ∈ post, x.name ≠ "FilterLife") :
    (attribute_xml_to_dict (pre ++ ⟨"FilterLife", v⟩ :: post)).filter_life =
      some (round2 ((raw / 60480) * 100)) := by
  unfold attribute_xml_to_dict
  rw [List.foldl_append, List.foldl_cons, filter_life_foldl_other post _ hpost,
    processAttribute_filter_life_set _ ⟨"FilterLife", v⟩ raw rfl hv]

/-- Witness for C6: raw value `30240` decodes to `filter_life = 50.0`. -/
theorem claim_C6_witness :
    parsePyFloat "30240" = some 30240 ∧
    (attribute_xml_to_dict [⟨"FilterLife", "30240"⟩]).filter_life = some 50 := by
  refine ⟨by with_unfolding_all rfl, ?_⟩
  have h := claim_C6 [] [] "30240" 30240 (by with_unfolding_all rfl) (by decide)
  have h50 : round2 (((30240 : ℚ) / 60480) * 100) = 50 := by with_unfolding_all decide
  simpa [h50] using h

theorem dictGet_mem (table : List (Int × String)) (key : Option Int) (dflt : String) :
    dictGet table key dflt = dflt ∨ (dictGet table key dflt) ∈ table.map Prod.snd := by
  unfold dictGet
  cases key with
  | none => exact Or.inl rfl
  | some v =>
    cases hf : table.find? (fun p => p.1 = v) with
    | none =>
      left
      simp only [hf]
    | some p =>
      right
      simp only [hf]
      exact List.mem_map_of_mem _ (List.mem_of_find?_eq_some hf)

theorem fan_mode_find_none (v : Int) (h : v < 0 ∨ 5 < v) :
    FAN_MODE_NAMES.find? (fun p => p.1 = v) = none := by
  have h0 : ¬ ((0 : Int) = v) := by omega
  have h1 : ¬ ((1 : Int) = v) := by omega
  have h2 : ¬ ((2 : Int) = v) := by omega
  have h3 : ¬ ((3 : Int) = v) := by omega
  have h4 : ¬ ((4 : Int) = v) := by omega
  have h5 : ¬ ((5 : Int) = v) := by omega
  simp [FAN_MODE_NAMES, List.find?, h0, h1, h2, h3, h4, h5]

/-- C1 (counterexample): `update_attributes` does not merge.  On the cached
snapshot with `fan_mode = 3` and a `GetAttributes` blob containing only
`CurrentHumidity=42.5`, the refreshed cache has no `fan_mode` key at all —
the prior `fan_mode = 3` is not preserved. -/
theorem claim_C1_counterexample :
    (Humidifier.update_attributes devMode3
        [⟨"CurrentHumidity", "42.5"⟩])._attributes.fan_mode = none ∧
    ¬ ((Humidifier.update_attributes devMode3
        [⟨"CurrentHumidity", "42.5"⟩])._attributes.fan_mode = some 3) := by
  have hnone : (Humidifier.update_attributes devMode3
      [⟨"CurrentHumidity", "42.5"⟩])._attributes.fan_mode = none := rfl
  refine ⟨hnone, fun h => ?_⟩
  rw [hnone] at h
  exact Option.noConfusion h

/-- C1 (amended): `update_attributes` (the refresh path) replaces the cached
snapshot wholesale with the decoded blob — keys absent from the delta are
dropped, as the counterexample shows.  The merge semantics the claim
describes belong to `subscription_update("attributeList", ...)`: there a key
absent from the delta keeps its previous cached value (each of the six keys)
and a key present in the delta overwrites (shown for the claim's
`current_humidity` example). -/
theorem claim_C1_amended (old : AttributeSnapshot) (st : Option Int)
    (resp params : Fragment) (b : Bool) :
    ((Humidifier.update_attributes ⟨old, st⟩ resp)._attributes = attribute_xml_to_dict resp)
    ∧ ((attribute_xml_to_dict params).fan_mode = none →
        (Humidifier.subscription_update ⟨old, st⟩ "attributeList" params
          b).1._attributes.fan_mode = old.fan_mode)
    ∧ ((attribute_xml_to_dict params).desired_humidity = none →
        (Humidifier.subscription_update ⟨old, st⟩ "attributeList" params
          b).1._attributes.desired_humidity = old.desired_humidity)
    ∧ ((attribute_xml_to_dict params).current_humidity = none →
        (Humidifier.subscription_update ⟨old, st⟩ "attributeList" params
          b).1._attributes.current_humidity = old.current_humidity)
    ∧ ((attribute_xml_to_dict params).water_level = none →
        (Humidifier.subscription_update ⟨old, st⟩ "attributeList" params
          b).1._attributes.water_level = old.water_level)
    ∧ ((attribute_xml_to_dict params).filter_life = none →
        (Humidifier.subscription_update ⟨old, st⟩ "attributeList" params
          b).1._attributes.filter_life = old.filter_life)
    ∧ ((attribute_xml_to_dict params).filter_expired = none →
        (Humidifier.subscription_update ⟨old, st⟩ "attributeList" params
          b).1._attributes.filter_expired = old.filter_expired)
    ∧ (∀ q : ℚ, (attribute_xml_to_dict params).current_humidity = some q →
        (Humidifier.subscription_update ⟨old, st⟩ "attributeList" params
          b).1._attributes.current_humidity = some q) := by
  refine ⟨rfl, ?_, ?_, ?_, ?_, ?_, ?_, ?_⟩ <;>
    first
      | (intro h; simp [Humidifier.subscription_update, updateSnapshot, h])
      | (intro q h; simp [Humidifier.subscription_update, updateSnapshot, h])

/-- Witness for C1 (amended): pushing a blob holding only
`CurrentHumidity=42.5` onto a cache with `fan_mode = 3` via
`subscription_update` preserves `fan_mode = 3` and sets
`current_humidity = 42.5`. -/
theorem claim_C1_witness :
    (Humidifier.subscription_update ⟨priorSnap, some 3⟩ "attributeList"
        [⟨"CurrentHumidity", "42.5"⟩] false).1._attributes.fan_mode = some 3 ∧
    (Humidifier.subscription_update ⟨priorSnap, some 3⟩ "attributeList"
        [⟨"CurrentHumidity", "42.5"⟩] false).1._attributes.current_humidity
      = some (85 / 2) := by
  constructor
  · exact (claim_C1_amended priorSnap (some 3) [] [⟨"CurrentHumidity", "42.5"⟩]
      false).2.1 (by with_unfolding_all rfl)
  · exact (claim_C1_amended priorSnap (some 3) [] [⟨"CurrentHumidity", "42.5"⟩]
      false).2.2.2.2.2.2.2 (85 / 2) (by with_unfolding_all rfl)

/-- C4: `get_state` returns `1` exactly when the cached `fan_mode` after the
call differs from `0` (including `None`) and `0` when it equals `0`; with
`force_update` true it invokes `update_attributes` exactly once, and with
`force_update` false and `_state` already set it invokes no refresh.  The
hypothesis `hwf` records the invariant every reachable device state
satisfies: `_state` mirrors the cached `fan_mode`. -/
theorem claim_C4 (dev : HumidifierState) (force : Bool) (resp : Fragment)
    (hwf : dev._state = Humidifier.fan_mode dev) :
    ((Humidifier.get_state dev force resp).2.1 =
      if Humidifier.fan_mode (Humidifier.get_state dev force resp).1 = some 0 then 0 else 1)
    ∧ (force = true → (Humidifier.get_state dev force resp).2.2 = 1)
    ∧ (force = false → dev._state ≠ none → (Humidifier.get_state dev force resp).2.2 = 0) := by
  cases force with
  | true =>
    refine ⟨rfl, fun _ => rfl, fun h _ => by simp at h⟩
  | false =>
    by_cases hs : dev._state = none
    · have hg : Humidifier.get_state dev false resp
          = (Humidifier.update_attributes dev resp,
             if (Humidifier.update_attributes dev resp)._state = some 0 then 0 else 1, 1) := by
        unfold Humidifier.get_state
        rw [hs]
        rfl
      refine ⟨?_, fun h => by simp at h, fun _ h => absurd hs h⟩
      rw [hg]
      rfl
    · have hiso : dev._state.isNone = false := by
        cases ho : dev._state with
        | none => exact absurd ho hs
        | some s => rfl
      have hg : Humidifier.get_state dev false resp
          = (dev, if dev._state = some 0 then 0 else 1, 0) := by
        unfold Humidifier.get_state
        rw [Bool.false_or, hiso]
        rfl
      refine ⟨?_, fun h => by simp at h, fun _ _ => by rw [hg]⟩
      rw [hg, hwf]

/-- Witness for C4: a forced `get_state` on a fresh device performs exactly
one refresh and reports `1`; an unforced `get_state` on a device with
`_state = 3` performs none. -/
theorem claim_C4_witness :
    (Humidifier.get_state devUnset true []).2.2 = 1 ∧
    (Humidifier.get_state devMode3 false []).2.2 = 0 :=
  ⟨(claim_C4 devUnset true [] rfl).2.1 rfl,
   (claim_C4 devMode3 false [] rfl).2.2 rfl (by decide)⟩

/-- C5: `set_fan_mode(m)` issues exactly one `SetAttributes` RPC whose
attribute list is the (externally escaped) rendering of the one-attribute
fragment `FanMode = str(int(m))`, and performs exactly one forced refresh
(`update_attributes` runs once). -/
theorem claim_C5 (dev : HumidifierState) (m : Int) (resp : Fragment) :
    (Humidifier.set_fan_mode dev m resp).2.1 =
      [Humidifier.quote_xml (renderFragment [⟨"FanMode", toString m⟩])]
    ∧ (Humidifier.set_fan_mode dev m resp).2.2 = 1 :=
  ⟨rfl, rfl⟩

/-- C9: when the cached snapshot has no `fan_mode` key, `_state` is `None`
and `get_state` returns `1` — `None != FanMode.Off` is true — whether or not
the refresh it performs happens, even when the refreshed blob again decodes
without a parseable `FanMode`. -/
theorem claim_C9 (dev : HumidifierState) (resp : Fragment)
    (hfm : Humidifier.fan_mode dev = none)
    (hwf : dev._state = Humidifier.fan_mode dev)
    (hresp : (attribute_xml_to_dict resp).fan_mode = none) :
    dev._state = none
    ∧ (∀ force : Bool, (Humidifier.get_state dev force resp).2.1 = 1) := by
  have hs : dev._state = none := by rw [hwf, hfm]
  refine ⟨hs, fun force => ?_⟩
  cases force with
  | false =>
    simp [Humidifier.get_state, Humidifier.update_attributes, hs, hresp]
  | true =>
    simp [Humidifier.get_state, Humidifier.update_attributes, hresp]

/-- Witness for C9: a fresh device (empty snapshot) with an empty refresh
response reports state `1`. -/
theorem claim_C9_witness :
    devUnset._state = none ∧ (Humidifier.get_state devUnset false []).2.1 = 1 :=
  ⟨(claim_C9 devUnset [] rfl rfl rfl).1,
   (claim_C9 devUnset [] rfl rfl rfl).2 false⟩

/-- C8: for cached `fan_mode` values 0–5 the `fan_mode_string` label is the
canonical name; for a value outside 0–5 the `fan_mode` accessor still
returns it while the label is `"Unknown"`; and the three label lookups
(`fan_mode_string`, `desired_humidity_percent`, `water_level_string`) are
total, always producing one of their table names or `"Unknown"`. -/
theorem claim_C8 (dev : HumidifierState) :
    (∀ v : Int, Humidifier.fan_mode dev = some v →
      (v = 0 → Humidifier.fan_mode_string dev = "Off")
      ∧ (v = 1 → Humidifier.fan_mode_string dev = "Minimum")
      ∧ (v = 2 → Humidifier.fan_mode_string dev = "Low")
      ∧ (v = 3 → Humidifier.fan_mode_string dev = "Medium")
      ∧ (v = 4 → Humidifier.fan_mode_string dev = "High")
      ∧ (v = 5 → Humidifier.fan_mode_string dev = "Maximum")
      ∧ (v < 0 ∨ 5 < v →
          Humidifier.fan_mode dev = some v ∧ Humidifier.fan_mode_string dev = "Unknown"))
    ∧ Humidifier.fan_mode_string dev
        ∈ ["Off", "Minimum", "Low", "Medium", "High", "Maximum", "Unknown"]
    ∧ Humidifier.desired_humidity_percent dev ∈ ["45", "50", "55", "60", "100", "Unknown"]
    ∧ Humidifier.water_level_string dev ∈ ["Empty", "Low", "Good", "Unknown"] := by
  refine ⟨?_, ?_, ?_, ?_⟩
  · intro v hv
    refine ⟨?_, ?_, ?_, ?_, ?_, ?_, ?_⟩
    · intro h
      subst h
      unfold Humidifier.fan_mode_string
      rw [hv]
      decide
    · intro h
      subst h
      unfold Humidifier.fan_mode_string
      rw [hv]
      decide
    · intro h
      subst h
      unfold Humidifier.fan_mode_string
      rw [hv]
      decide
    · intro h
      subst h
      unfold Humidifier.fan_mode_string
      rw [hv]
      decide
    · intro h
      subst h
      unfold Humidifier.fan_mode_string
      rw [hv]
      decide
    · intro h
      subst h
      unfold Humidifier.fan_mode_string
      rw [hv]
      decide
    · intro h
      refine ⟨hv, ?_⟩
      unfold Humidifier.fan_mode_string dictGet
      rw [hv]
      simp [fan_mode_find_none v h]
  · show dictGet FAN_MODE_NAMES (Humidifier.fan_mode dev) "Unknown" ∈ _
    rcases dictGet_mem FAN_MODE_NAMES (Humidifier.fan_mode dev) "Unknown" with h | h
    · simp [h]
    · have hmap : FAN_MODE_NAMES.map Prod.snd
          = ["Off", "Minimum", "Low", "Medium", "High", "Maximum"] := rfl
      rw [hmap] at h
      simp only [List.mem_cons, List.not_mem_nil, or_false] at h
      rcases h with h | h | h | h | h | h <;> simp [h]
  · show dictGet DESIRED_HUMIDITY_NAMES (Humidifier.desired_humidity dev) "Unknown" ∈ _
    rcases dictGet_mem DESIRED_HUMIDITY_NAMES (Humidifier.desired_humidity dev) "Unknown"
      with h | h
    · simp [h]
    · have hmap : DESIRED_HUMIDITY_NAMES.map Prod.snd
          = ["45", "50", "55", "60", "100"] := rfl
      rw [hmap] at h
      simp only [List.mem_cons, List.not_mem_nil, or_false] at h
      rcases h with h | h | h | h | h <;> simp [h]
  · show dictGet WATER_LEVEL_NAMES (Humidifier.water_level dev) "Unknown" ∈ _
    rcases dictGet_mem WATER_LEVEL_NAMES (Humidifier.water_level dev) "Unknown" with h | h
    · simp [h]
    · have hmap : WATER_LEVEL_NAMES.map Prod.snd = ["Empty", "Low", "Good"] := rfl
      rw [hmap] at h
      simp only [List.mem_cons, List.not_mem_nil, or_false] at h
      rcases h with h | h | h <;> simp [h]

/-- Witness for C8: `fan_mode = 4` labels as `"High"`; the out-of-range
`fan_mode = 9` is still reported by the accessor while labelling as
`"Unknown"`. -/
theorem claim_C8_witness :
    Humidifier.fan_mode_string devMode4 = "High" ∧
    (Humidifier.fan_mode devMode9 = some 9 ∧ Humidifier.fan_mode_string devMode9 = "Unknown") :=
  ⟨(((claim_C8 devMode4).1 4 rfl).2.2.2.2.1) rfl,
   ((claim_C8 devMode9).1 9 rfl).2.2.2.2.2.2 (by omega)⟩
